import Mathlib

/-!
Shallow embedding of `proxy.py`, a Flask relay around a remote Gradio client.

The remote world (the `Client(...)` constructor and `client.predict(...)`)
is nondeterministic from the program's point of view; we model the outcomes
a single handler call can observe as an explicit environment (`PredictEnv`):
the results of up to two client initializations and up to two remote
predict invocations that one `GradioClientManager.predict` call can perform.
Remote results are modelled as `Option String`: `none` is Python `None`,
`some s` is a value whose `str()` form is `s`.
-/

set_option linter.unusedVariables false

/-- The mutable state of `GradioClientManager`: whether the client handle is
present (`self.client is not None`), the retry counter, and `max_retries`. -/
structure ManagerState where
  client : Bool
  retry_count : Nat
  max_retries : Nat
deriving DecidableEq, Repr

/-- Outcome of one remote `client.predict(...)` invocation: either a returned
value (possibly Python `None`) or a raised exception with message string. -/
inductive CallOutcome where
  | success : Option String → CallOutcome
  | failure : String → CallOutcome
deriving DecidableEq, Repr

/-- The remote outcomes one `GradioClientManager.predict` call can consume:
the result of the entry initialization (when the handle is absent), the first
remote invocation, the retry-branch initialization, and the retried remote
invocation. Components that the control flow never reaches are ignored. -/
structure PredictEnv where
  init1 : Bool
  remote1 : CallOutcome
  init2 : Bool
  remote2 : CallOutcome
deriving DecidableEq, Repr

namespace GradioClientManager

/-- `initialize_client` (proxy.py lines 23-36): on success the handle is set
and `retry_count` resets to 0; on failure (`Client(...)` raised) the handle is
unchanged and `retry_count` increments.  Returns the success boolean together
with the updated state. -/
def initialize_client (ok : Bool) (s : ManagerState) : Bool × ManagerState :=
  if ok then
    (true, { s with client := true, retry_count := 0 })
  else
    (false, { s with retry_count := s.retry_count + 1 })

/-- Normalization of a remote result (proxy.py lines 46 and 53):
`str(result) if result is not None else "No result returned"`. -/
def normalizeResult : Option String → String
  | some r => r
  | none => "No result returned"

/-- The `try`/`except` body of `predict` (proxy.py lines 43-55), entered with
the handle present.  Returns the result or raised error message, the final
state, and how many remote predict invocations were performed. -/
def tryPredict (text : String) (env : PredictEnv) (s1 : ManagerState) :
    Except String String × ManagerState × Nat :=
  match env.remote1 with
  | CallOutcome.success r => (Except.ok (normalizeResult r), s1, 1)
  | CallOutcome.failure e =>
    -- `self.client = None`; then `if self.retry_count < self.max_retries and
    -- self.initialize_client():` (short-circuit) retry once, else `raise e`.
    let s2 : ManagerState := { s1 with client := false }
    if s2.retry_count < s2.max_retries then
      match initialize_client env.init2 s2 with
      | (true, s3) =>
        match env.remote2 with
        | CallOutcome.success r => (Except.ok (normalizeResult r), s3, 2)
        | CallOutcome.failure e2 => (Except.error e2, s3, 2)
      | (false, s3) => (Except.error e, s3, 1)
    else
      (Except.error e, s2, 1)

/-- `GradioClientManager.predict` (proxy.py lines 38-55).  If the handle is
absent it first calls `initialize_client`, raising
`"Gradio client not available"` when that fails; otherwise it runs the
`try`/`except` body. -/
def predict (text : String) (env : PredictEnv) (s0 : ManagerState) :
    Except String String × ManagerState × Nat :=
  if s0.client then
    tryPredict text env s0
  else
    match initialize_client env.init1 s0 with
    | (true, s1) => tryPredict text env s1
    | (false, s1) => (Except.error "Gradio client not available", s1, 0)

/-- `__init__` (proxy.py lines 17-21): fields start as
`client = None, retry_count = 0, max_retries = 3`, then `initialize_client`
is called once. -/
def init (ok : Bool) : ManagerState :=
  (initialize_client ok { client := false, retry_count := 0, max_retries := 3 }).2

end GradioClientManager

/-- States of the manager reachable after `__init__` followed by any sequence
of `initialize_client` and `predict` calls, each under arbitrary remote
outcomes. -/
inductive Reachable : ManagerState → Prop where
  | init : ∀ ok, Reachable (GradioClientManager.init ok)
  | step_init : ∀ ok s, Reachable s →
      Reachable (GradioClientManager.initialize_client ok s).2
  | step_predict : ∀ t env s, Reachable s →
      Reachable (GradioClientManager.predict t env s).2.1

/-! ### The HTTP surface (proxy.py lines 70-144) -/

/-- Whether `pat` occurs as a contiguous sublist of the second argument. -/
def containsSubList (pat : List Char) : List Char → Bool
  | [] => List.isPrefixOf pat []
  | c :: cs => List.isPrefixOf pat (c :: cs) || containsSubList pat cs

/-- Boolean substring containment: `pat in s` in Python. -/
def strContains (s pat : String) : Bool := containsSubList pat.data s.data

/-- Python `str.lower()`: character-wise lowercasing. -/
def strLower (s : String) : String := String.mk (s.data.map Char.toLower)

/-- Python `str.strip()`: remove leading and trailing whitespace. -/
def pyStrip (s : String) : String :=
  String.mk (((s.data.dropWhile Char.isWhitespace).reverse.dropWhile Char.isWhitespace).reverse)

/-- The user-facing message chosen by the `except` branch of the `/predict`
handler (proxy.py lines 109-117): keyword classification of `str(e)`. -/
def classifyError (error_msg : String) : String :=
  if strContains (strLower error_msg) "timeout" then
    "Request timeout. The model is taking too long to respond."
  else if strContains (strLower error_msg) "connection" then
    "Connection error. Cannot reach the AI model."
  else if strContains error_msg "429" then
    "Rate limit exceeded. Please try again in a moment."
  else
    String.append "Processing error: " error_msg

/-- Kinds of non-string JSON values that can appear as the `"text"` field of a
POST body, with their Python type names. -/
inductive JsonKind where
  | int | float | bool | nullV | list | dict
deriving DecidableEq, Repr

/-- Python type name of a non-string JSON value. -/
def pyTypeName : JsonKind → String
  | JsonKind.int => "int"
  | JsonKind.float => "float"
  | JsonKind.bool => "bool"
  | JsonKind.nullV => "NoneType"
  | JsonKind.list => "list"
  | JsonKind.dict => "dict"

/-- Message of the `AttributeError` raised by `value.strip()` when `value` is
not a string. -/
def attrErrMsg (k : JsonKind) : String :=
  "\x27" ++ pyTypeName k ++ "\x27 object has no attribute \x27strip\x27"

/-- The `"text"` field of a truthy POST JSON body: absent (so `data.get`
yields the default `""`), a string, or a non-string JSON value. -/
inductive TextField where
  | absent
  | strVal : String → TextField
  | nonStr : JsonKind → TextField
deriving DecidableEq, Repr

/-- A request to `/predict`: a GET with the raw `text` query parameter (the
default `""` when the parameter is missing), a POST whose `get_json()` result
is falsy, or a POST with a truthy JSON object body. -/
inductive PredictRequest where
  | get : String → PredictRequest
  | postNoJson : PredictRequest
  | postJson : TextField → PredictRequest
deriving DecidableEq, Repr

/-- The observable `/predict` response: a 400 with an error message, a 200
with `input_length` and `result`, or a 500 with the user-facing `error` and
the raw `debug_error`. -/
inductive HandlerResponse where
  | badRequest : String → HandlerResponse
  | success : Nat → String → HandlerResponse
  | serverError : String → String → HandlerResponse
deriving DecidableEq, Repr

/-- The shared tail of the `/predict` handler (proxy.py lines 82-123), run on
the extracted `text` (already stripped for POST, raw for GET): validation,
the manager call, and the `except` classification.  Returns the response, the
manager state afterwards, and whether the manager was invoked. -/
def handleText (text : String) (env : PredictEnv) (s : ManagerState) :
    HandlerResponse × ManagerState × Bool :=
  if text = "" then
    (HandlerResponse.badRequest "Text cannot be empty", s, false)
  else if text.length > 10000 then
    (HandlerResponse.badRequest "Text too long. Maximum 10000 characters allowed.", s, false)
  else
    match GradioClientManager.predict text env s with
    | (Except.ok r, s2, _) => (HandlerResponse.success text.length r, s2, true)
    | (Except.error e, s2, _) =>
      (HandlerResponse.serverError (classifyError e) e, s2, true)

/-- The `/predict` route handler (proxy.py lines 70-123).  GET reads the raw
query parameter without stripping; POST rejects a falsy body, strips a string
`"text"` value, and a non-string `"text"` raises `AttributeError` inside the
outer `try`, which the generic `except` turns into a classified 500. -/
def handlePredict (req : PredictRequest) (env : PredictEnv) (s : ManagerState) :
    HandlerResponse × ManagerState × Bool :=
  match req with
  | PredictRequest.get q => handleText q env s
  | PredictRequest.postNoJson =>
    (HandlerResponse.badRequest "No JSON data provided", s, false)
  | PredictRequest.postJson TextField.absent => handleText (pyStrip "") env s
  | PredictRequest.postJson (TextField.strVal v) => handleText (pyStrip v) env s
  | PredictRequest.postJson (TextField.nonStr k) =>
    (HandlerResponse.serverError (classifyError (attrErrMsg k)) (attrErrMsg k), s, false)

/-- The observable `/health` response (proxy.py lines 138-144). -/
structure HealthResponse where
  status : String
  details : String
  client_initialized : Bool
  retry_count : Nat
deriving DecidableEq, Repr

/-- The `/health` route handler (proxy.py lines 125-144): probes the manager
with the fixed string and reports the resulting status alongside the current
handle presence and retry counter. -/
def health (env : PredictEnv) (s : ManagerState) : HealthResponse × ManagerState :=
  match GradioClientManager.predict "Test health check" env s with
  | (Except.ok _, s2, _) =>
    ({ status := "healthy", details := "Client connected and responding",
       client_initialized := s2.client, retry_count := s2.retry_count }, s2)
  | (Except.error e, s2, _) =>
    ({ status := "degraded", details := String.append "Client issue: " e,
       client_initialized := s2.client, retry_count := s2.retry_count }, s2)

/-! ### Shared helper lemmas -/

/-- `initialize_client` never writes `max_retries`. -/
theorem initialize_client_preserves_max (ok : Bool) (s : ManagerState) :
    (GradioClientManager.initialize_client ok s).2.max_retries = s.max_retries := by
  cases ok <;> rfl

/-- `tryPredict` never writes `max_retries`. -/
theorem tryPredict_preserves_max (t : String) (env : PredictEnv) (s : ManagerState) :
    (GradioClientManager.tryPredict t env s).2.1.max_retries = s.max_retries := by
  rcases env with ⟨i1, r1, i2, r2⟩
  cases r1 <;> cases r2 <;> cases i2 <;>
    simp [GradioClientManager.tryPredict, GradioClientManager.initialize_client] <;>
    split <;> rfl

/-- `predict` never writes `max_retries`. -/
theorem predict_preserves_max (t : String) (env : PredictEnv) (s : ManagerState) :
    (GradioClientManager.predict t env s).2.1.max_retries = s.max_retries := by
  by_cases hc : s.client
  · rw [GradioClientManager.predict, if_pos hc]
    exact tryPredict_preserves_max t env s
  · rw [GradioClientManager.predict, if_neg hc]
    cases hi : GradioClientManager.initialize_client env.init1 s with
    | mk ok s1 =>
      cases ok
      · have : s1.max_retries = s.max_retries := by
          have := initialize_client_preserves_max env.init1 s
          rw [hi] at this; exact this
        simpa using this
      · have h1 : s1.max_retries = s.max_retries := by
          have := initialize_client_preserves_max env.init1 s
          rw [hi] at this; exact this
        simpa [tryPredict_preserves_max t env s1] using h1

example : GradioClientManager.init true = ⟨true, 0, 3⟩ := by decide
example : GradioClientManager.init false = ⟨false, 1, 3⟩ := by decide
example :
    GradioClientManager.predict "x" ⟨false, CallOutcome.failure "a", false, CallOutcome.failure "b"⟩ ⟨false, 1, 3⟩ =
      (Except.error "Gradio client not available", ⟨false, 2, 3⟩, 0) := rfl
example :
    GradioClientManager.predict "x" ⟨true, CallOutcome.failure "a", true, CallOutcome.failure "b"⟩ ⟨true, 0, 3⟩ =
      (Except.error "b", ⟨true, 0, 3⟩, 2) := rfl
example : classifyError "read timeout on socket" =
    "Request timeout. The model is taking too long to respond." := by decide
example : classifyError (attrErrMsg JsonKind.int) =
    String.append "Processing error: " (attrErrMsg JsonKind.int) := by decide
example : handlePredict (PredictRequest.get " ")
    ⟨true, CallOutcome.success (some "ok"), true, CallOutcome.success none⟩ ⟨true, 0, 3⟩ =
    (HandlerResponse.success 1 "ok", ⟨true, 0, 3⟩, true) := rfl

/-! ### Claims -/

/-- Claim C1: for every call to `GradioClientManager.predict` with an Active
handle, at most one re-initialize-and-retry cycle is performed: the remote
predict is invoked at most twice in total, with no further retry after the
second invocation regardless of its outcome. -/
theorem claim1_retry_at_most_once (t : String) (env : PredictEnv)
    (s : ManagerState) (h : s.client = true) :
    (GradioClientManager.predict t env s).2.2 ≤ 2 := by
  rcases env with ⟨i1, r1, i2, r2⟩
  cases r1 <;> cases r2 <;> cases i2 <;>
    simp [GradioClientManager.predict, GradioClientManager.tryPredict,
      GradioClientManager.initialize_client, h] <;>
    split <;> simp

theorem claim1_witness :
    (⟨true, 0, 3⟩ : ManagerState).client = true ∧
      (GradioClientManager.predict "x"
        ⟨true, CallOutcome.failure "a", true, CallOutcome.failure "b"⟩
        ⟨true, 0, 3⟩).2.2 ≤ 2 :=
  ⟨rfl, claim1_retry_at_most_once "x" _ _ rfl⟩

/-- Claim C2 counterexample: with an Active handle, when the first remote
invocation fails and the retried remote invocation also fails, the error
raised is the retry error, not the original error. -/
theorem claim2_counterexample :
    (GradioClientManager.predict "x"
        ⟨true, CallOutcome.failure "original failure", true,
          CallOutcome.failure "retry failure"⟩
        ⟨true, 0, 3⟩).1 = Except.error "retry failure" ∧
      "retry failure" ≠ "original failure" :=
  ⟨rfl, by decide⟩

/-- Claim C2 (amended): when the first remote invocation fails, the original
error is raised exactly in the cases where the retry cycle never runs a
second remote invocation — retries exhausted or re-initialization failed;
when the retried remote invocation itself fails, its own (second) error is
the one raised. -/
theorem claim2_original_error_propagation (t : String) (env : PredictEnv)
    (s : ManagerState) (e : String) (hc : s.client = true)
    (h1 : env.remote1 = CallOutcome.failure e) :
    ((s.max_retries ≤ s.retry_count ∨ env.init2 = false) →
      (GradioClientManager.predict t env s).1 = Except.error e) ∧
    (∀ e2, s.retry_count < s.max_retries → env.init2 = true →
      env.remote2 = CallOutcome.failure e2 →
      (GradioClientManager.predict t env s).1 = Except.error e2) := by
  constructor
  · intro hor
    rcases hor with hle | hi2
    · simp [GradioClientManager.predict, hc, GradioClientManager.tryPredict, h1]
      rw [if_neg (by simpa using Nat.not_lt.mpr hle)]
    · by_cases hlt : s.retry_count < s.max_retries
      · simp [GradioClientManager.predict, hc, GradioClientManager.tryPredict, h1,
          hi2, GradioClientManager.initialize_client, hlt]
      · simp [GradioClientManager.predict, hc, GradioClientManager.tryPredict, h1]
        rw [if_neg (by simpa using hlt)]
  · intro e2 hlt hi2 h2
    simp [GradioClientManager.predict, hc, GradioClientManager.tryPredict, h1,
      hi2, h2, GradioClientManager.initialize_client, hlt]

theorem claim2_witness :
    ((⟨true, 3, 3⟩ : ManagerState).client = true ∧
      (⟨true, CallOutcome.failure "boom", true, CallOutcome.failure "other"⟩ :
        PredictEnv).remote1 = CallOutcome.failure "boom") ∧
    (GradioClientManager.predict "x"
        ⟨true, CallOutcome.failure "boom", true, CallOutcome.failure "other"⟩
        ⟨true, 3, 3⟩).1 = Except.error "boom" :=
  ⟨⟨rfl, rfl⟩,
    (claim2_original_error_propagation "x" _ _ "boom" rfl rfl).1 (Or.inl (by decide))⟩

/-- Claim C3 counterexample: the state with `retry_count = 4` and
`max_retries = 3` is reachable — `__init__` with a failing initialization
followed by three `predict` calls whose entry initializations all fail — so
`retry_count` is not bounded by `max_retries`. -/
theorem claim3_counterexample :
    Reachable (⟨false, 4, 3⟩ : ManagerState) ∧
      ¬ ((⟨false, 4, 3⟩ : ManagerState).retry_count ≤
          (⟨false, 4, 3⟩ : ManagerState).max_retries) := by
  constructor
  · have h0 : Reachable (GradioClientManager.init false) := Reachable.init false
    have e0 : GradioClientManager.init false = (⟨false, 1, 3⟩ : ManagerState) := rfl
    rw [e0] at h0
    have h1 := Reachable.step_predict "t"
      ⟨false, CallOutcome.failure "x", false, CallOutcome.failure "x"⟩ _ h0
    have e1 : (GradioClientManager.predict "t"
        ⟨false, CallOutcome.failure "x", false, CallOutcome.failure "x"⟩
        (⟨false, 1, 3⟩ : ManagerState)).2.1 = (⟨false, 2, 3⟩ : ManagerState) := rfl
    rw [e1] at h1
    have h2 := Reachable.step_predict "t"
      ⟨false, CallOutcome.failure "x", false, CallOutcome.failure "x"⟩ _ h1
    have e2 : (GradioClientManager.predict "t"
        ⟨false, CallOutcome.failure "x", false, CallOutcome.failure "x"⟩
        (⟨false, 2, 3⟩ : ManagerState)).2.1 = (⟨false, 3, 3⟩ : ManagerState) := rfl
    rw [e2] at h2
    have h3 := Reachable.step_predict "t"
      ⟨false, CallOutcome.failure "x", false, CallOutcome.failure "x"⟩ _ h2
    have e3 : (GradioClientManager.predict "t"
        ⟨false, CallOutcome.failure "x", false, CallOutcome.failure "x"⟩
        (⟨false, 3, 3⟩ : ManagerState)).2.1 = (⟨false, 4, 3⟩ : ManagerState) := rfl
    rw [e3] at h3
    exact h3
  · decide

/-- Claim C3 (amended): `max_retries` is the constant 3 in every reachable
state and no operation ever modifies it; `retry_count`, however, is not
bounded by `max_retries` (see the counterexample) — it is reset to 0 only by
a successful initialization and grows by one on each failed initialization,
including the unguarded one performed when `predict` finds the handle
absent. -/
theorem claim3_max_retries_constant :
    (∀ ok s, (GradioClientManager.initialize_client ok s).2.max_retries = s.max_retries) ∧
    (∀ t env s, (GradioClientManager.predict t env s).2.1.max_retries = s.max_retries) ∧
    (∀ s, Reachable s → s.max_retries = 3) := by
  refine ⟨initialize_client_preserves_max, predict_preserves_max, ?_⟩
  intro s h
  induction h with
  | init ok => cases ok <;> rfl
  | step_init ok s _ ih => rw [initialize_client_preserves_max]; exact ih
  | step_predict t env s _ ih => rw [predict_preserves_max]; exact ih

theorem claim3_witness :
    (GradioClientManager.init true).max_retries = 3 :=
  claim3_max_retries_constant.2.2 _ (Reachable.init true)

/-- Claim C4 counterexample: a GET request whose text is whitespace-only
(`" "`) is not rejected with a 400; the raw query parameter is never
stripped, so it passes validation and the Client Manager is invoked
(third component `true`), here returning a 200. -/
theorem claim4_counterexample :
    pyStrip " " = "" ∧
      handlePredict (PredictRequest.get " ")
        ⟨true, CallOutcome.success (some "ok"), true, CallOutcome.success none⟩
        ⟨true, 0, 3⟩ =
        (HandlerResponse.success 1 "ok", ⟨true, 0, 3⟩, true) :=
  ⟨by decide, rfl⟩

/-- Claim C4 (amended): for POST requests, text that is empty or
whitespace-only after stripping (including an absent field) yields the 400
empty-text error and the Client Manager is not invoked; for GET requests
this holds only when the raw query text is exactly empty — whitespace-only
GET text passes validation and the manager is invoked. -/
theorem claim4_empty_text_validation (env : PredictEnv) (s : ManagerState) :
    (∀ v, pyStrip v = "" →
      handlePredict (PredictRequest.postJson (TextField.strVal v)) env s =
        (HandlerResponse.badRequest "Text cannot be empty", s, false)) ∧
    (handlePredict (PredictRequest.postJson TextField.absent) env s =
      (HandlerResponse.badRequest "Text cannot be empty", s, false)) ∧
    (handlePredict (PredictRequest.get "") env s =
      (HandlerResponse.badRequest "Text cannot be empty", s, false)) ∧
    (∀ q, q ≠ "" → ¬ q.length > 10000 →
      (handlePredict (PredictRequest.get q) env s).2.2 = true) := by
  refine ⟨?_, ?_, ?_, ?_⟩
  · intro v hv
    simp [handlePredict, handleText, hv]
  · have h : pyStrip "" = "" := by decide
    simp [handlePredict, handleText, h]
  · simp [handlePredict, handleText]
  · intro q hq hlen
    rcases hm : GradioClientManager.predict q env s with ⟨res, s2, n⟩
    cases res <;> simp [handlePredict, handleText, hq, hlen, hm]

theorem claim4_witness :
    (pyStrip "  " = "" ∧
      handlePredict (PredictRequest.postJson (TextField.strVal "  "))
        ⟨true, CallOutcome.success none, true, CallOutcome.success none⟩
        ⟨true, 0, 3⟩ =
        (HandlerResponse.badRequest "Text cannot be empty", ⟨true, 0, 3⟩, false)) ∧
    (" " ≠ "" ∧ ¬ (" " : String).length > 10000 ∧
      (handlePredict (PredictRequest.get " ")
        ⟨true, CallOutcome.success none, true, CallOutcome.success none⟩
        ⟨true, 0, 3⟩).2.2 = true) :=
  ⟨⟨by decide,
    (claim4_empty_text_validation
      ⟨true, CallOutcome.success none, true, CallOutcome.success none⟩
      ⟨true, 0, 3⟩).1 "  " (by decide)⟩,
   by decide, by decide,
    (claim4_empty_text_validation
      ⟨true, CallOutcome.success none, true, CallOutcome.success none⟩
      ⟨true, 0, 3⟩).2.2.2 " " (by decide) (by decide)⟩

/-- Claim C5 counterexample: the GET text `" a "` is non-empty after
trimming (trimmed text `"a"`, length 1) and within the length bound, and the
handler returns a 200 — but with `input_length = 3`, the raw length, not the
trimmed length 1. -/
theorem claim5_counterexample :
    pyStrip " a " = "a" ∧
      handlePredict (PredictRequest.get " a ")
        ⟨true, CallOutcome.success (some "r"), true, CallOutcome.success none⟩
        ⟨true, 0, 3⟩ =
        (HandlerResponse.success 3 "r", ⟨true, 0, 3⟩, true) ∧
      (3 : Nat) ≠ ("a" : String).length :=
  ⟨by decide, rfl, by decide⟩

/-- Claim C5 (amended): for every `/predict` request whose text is non-empty
after trimming and within the 10,000-character bound, the handler either
returns a 200 with `input_length` equal to the length of the text the
handler validated — the trimmed text for POST, the raw untrimmed text for
GET — or a classified 500 error; no other outcome is possible. -/
theorem claim5_predict_outcomes (env : PredictEnv) (s : ManagerState) :
    (∀ q : String, pyStrip q ≠ "" → q.length ≤ 10000 →
      (∃ r, (handlePredict (PredictRequest.get q) env s).1 =
          HandlerResponse.success q.length r) ∨
      (∃ e, (handlePredict (PredictRequest.get q) env s).1 =
          HandlerResponse.serverError (classifyError e) e)) ∧
    (∀ v : String, pyStrip v ≠ "" → (pyStrip v).length ≤ 10000 →
      (∃ r, (handlePredict (PredictRequest.postJson (TextField.strVal v)) env s).1 =
          HandlerResponse.success (pyStrip v).length r) ∨
      (∃ e, (handlePredict (PredictRequest.postJson (TextField.strVal v)) env s).1 =
          HandlerResponse.serverError (classifyError e) e)) := by
  constructor
  · intro q hq hlen
    have hq' : q ≠ "" := by
      intro h; apply hq; rw [h]; decide
    have hlen' : ¬ q.length > 10000 := by omega
    rcases hm : GradioClientManager.predict q env s with ⟨res, s2, n⟩
    cases res with
    | ok r => exact Or.inl ⟨r, by simp [handlePredict, handleText, hq', hlen', hm]⟩
    | error e => exact Or.inr ⟨e, by simp [handlePredict, handleText, hq', hlen', hm]⟩
  · intro v hv hlen
    have hlen' : ¬ (pyStrip v).length > 10000 := by omega
    rcases hm : GradioClientManager.predict (pyStrip v) env s with ⟨res, s2, n⟩
    cases res with
    | ok r => exact Or.inl ⟨r, by simp [handlePredict, handleText, hv, hlen', hm]⟩
    | error e => exact Or.inr ⟨e, by simp [handlePredict, handleText, hv, hlen', hm]⟩

theorem claim5_witness :
    pyStrip "hi" ≠ "" ∧ ("hi" : String).length ≤ 10000 ∧
      ((∃ r, (handlePredict (PredictRequest.get "hi")
          ⟨true, CallOutcome.success (some "res"), true, CallOutcome.success none⟩
          ⟨true, 0, 3⟩).1 = HandlerResponse.success ("hi" : String).length r) ∨
       (∃ e, (handlePredict (PredictRequest.get "hi")
          ⟨true, CallOutcome.success (some "res"), true, CallOutcome.success none⟩
          ⟨true, 0, 3⟩).1 = HandlerResponse.serverError (classifyError e) e)) :=
  ⟨by decide, by decide,
    (claim5_predict_outcomes
      ⟨true, CallOutcome.success (some "res"), true, CallOutcome.success none⟩
      ⟨true, 0, 3⟩).1 "hi" (by decide) (by decide)⟩

/-- When the `try`/`except` body raises, the handle is absent afterwards
unless the error came from the retried remote invocation, which runs after a
successful re-initialization re-created the handle. -/
theorem tryPredict_error_client (t : String) (env : PredictEnv)
    (s1 : ManagerState) (e : String)
    (h : (GradioClientManager.tryPredict t env s1).1 = Except.error e) :
    (GradioClientManager.tryPredict t env s1).2.1.client = false ∨
      (env.remote2 = CallOutcome.failure e ∧
        (GradioClientManager.tryPredict t env s1).2.1.client = true) := by
  rcases env with ⟨i1, r1, i2, r2⟩
  cases r1 with
  | success r => simp [GradioClientManager.tryPredict] at h
  | failure e1 =>
    by_cases hlt : s1.retry_count < s1.max_retries
    · cases i2 with
      | false =>
        left
        simp [GradioClientManager.tryPredict, hlt, GradioClientManager.initialize_client]
      | true =>
        cases r2 with
        | success r =>
          simp [GradioClientManager.tryPredict, hlt,
            GradioClientManager.initialize_client] at h
        | failure e2 =>
          right
          simp [GradioClientManager.tryPredict, hlt,
            GradioClientManager.initialize_client] at h ⊢
          exact h
    · left
      simp [GradioClientManager.tryPredict, hlt]

/-- Claim C6 counterexample: with an Active handle and `retry_count = 0`,
a failing first remote invocation followed by a successful re-initialization
and a failing retried invocation makes `predict` raise while the handle is
still present — the handle is not absent after this raising call. -/
theorem claim6_counterexample :
    (GradioClientManager.predict "x"
        ⟨true, CallOutcome.failure "boom", true, CallOutcome.failure "boom2"⟩
        ⟨true, 0, 3⟩).1 = Except.error "boom2" ∧
      (GradioClientManager.predict "x"
        ⟨true, CallOutcome.failure "boom", true, CallOutcome.failure "boom2"⟩
        ⟨true, 0, 3⟩).2.1.client = true :=
  ⟨rfl, rfl⟩

/-- Claim C6 (amended): the handle becomes Active exactly on a successful
initialization (a failed one leaves it unchanged), and after a `predict`
call that raises an error the handle is absent — except when the raised
error is the failure of the retried remote invocation, which runs after a
successful re-initialization, in which case the handle remains Active. -/
theorem claim6_handle_state_machine :
    (∀ ok s, ((GradioClientManager.initialize_client ok s).2).client =
      (ok || s.client)) ∧
    (∀ t env s e, (GradioClientManager.predict t env s).1 = Except.error e →
      ((GradioClientManager.predict t env s).2.1.client = false ∨
        (env.remote2 = CallOutcome.failure e ∧
          (GradioClientManager.predict t env s).2.1.client = true))) := by
  constructor
  · intro ok s
    cases ok <;> simp [GradioClientManager.initialize_client]
  · intro t env s e h
    by_cases hc : s.client = true
    · rw [GradioClientManager.predict, if_pos hc] at h ⊢
      exact tryPredict_error_client t env s e h
    · have hc' : s.client = false := by simpa using hc
      cases hinit : env.init1 with
      | true =>
        simp only [GradioClientManager.predict, if_neg hc, hinit,
          GradioClientManager.initialize_client, if_true] at h ⊢
        exact tryPredict_error_client t env _ e h
      | false =>
        left
        simp only [GradioClientManager.predict, if_neg hc, hinit,
          GradioClientManager.initialize_client, Bool.false_eq_true,
          if_false] at h ⊢
        simpa using hc'

theorem claim6_witness :
    (GradioClientManager.predict "x"
        ⟨false, CallOutcome.failure "a", false, CallOutcome.failure "b"⟩
        ⟨false, 1, 3⟩).1 = Except.error "Gradio client not available" ∧
      ((GradioClientManager.predict "x"
          ⟨false, CallOutcome.failure "a", false, CallOutcome.failure "b"⟩
          ⟨false, 1, 3⟩).2.1.client = false ∨
        ((⟨false, CallOutcome.failure "a", false, CallOutcome.failure "b"⟩ :
            PredictEnv).remote2 =
              CallOutcome.failure "Gradio client not available" ∧
          (GradioClientManager.predict "x"
            ⟨false, CallOutcome.failure "a", false, CallOutcome.failure "b"⟩
            ⟨false, 1, 3⟩).2.1.client = true)) :=
  ⟨rfl, claim6_handle_state_machine.2 "x" _ _ "Gradio client not available" rfl⟩

/-- `normalizeResult` is `Option.getD` with the placeholder as default. -/
theorem normalizeResult_eq_getD (r : Option String) :
    GradioClientManager.normalizeResult r = Option.getD r "No result returned" := by
  cases r <;> rfl

/-- Claim C7 counterexample: when the remote call returns the empty string —
an empty, present result — `predict` returns the empty string itself, not
the fixed placeholder. -/
theorem claim7_counterexample :
    (GradioClientManager.predict "x"
        ⟨true, CallOutcome.success (some ""), true, CallOutcome.success none⟩
        ⟨true, 0, 3⟩).1 = Except.ok "" ∧
      ("" : String) ≠ "No result returned" :=
  ⟨rfl, by decide⟩

/-- Claim C7 (amended): every successful `predict` call returns the string
form of the value produced by the remote invocation that succeeded (the
first or the retried one), with the fixed placeholder substituted only when
that value is absent (Python `None`); an empty-string result is returned
as the empty string. -/
theorem claim7_result_normalization (t : String) (env : PredictEnv)
    (s : ManagerState) (v : String)
    (h : (GradioClientManager.predict t env s).1 = Except.ok v) :
    ∃ r : Option String,
      v = Option.getD r "No result returned" ∧
      (env.remote1 = CallOutcome.success r ∨
        env.remote2 = CallOutcome.success r) := by
  rcases env with ⟨i1, r1, i2, r2⟩
  have main : ∀ s1 : ManagerState,
      (GradioClientManager.tryPredict t ⟨i1, r1, i2, r2⟩ s1).1 = Except.ok v →
      ∃ r : Option String,
        v = Option.getD r "No result returned" ∧
        (r1 = CallOutcome.success r ∨ r2 = CallOutcome.success r) := by
    intro s1 h1
    cases r1 with
    | success r =>
      refine ⟨r, ?_, Or.inl rfl⟩
      simp [GradioClientManager.tryPredict, normalizeResult_eq_getD] at h1
      exact h1.symm
    | failure e1 =>
      by_cases hlt : s1.retry_count < s1.max_retries
      · cases i2 with
        | false =>
          simp [GradioClientManager.tryPredict, hlt,
            GradioClientManager.initialize_client] at h1
        | true =>
          cases r2 with
          | success r =>
            refine ⟨r, ?_, Or.inr rfl⟩
            simp [GradioClientManager.tryPredict, hlt,
              GradioClientManager.initialize_client,
              normalizeResult_eq_getD] at h1
            exact h1.symm
          | failure e2 =>
            simp [GradioClientManager.tryPredict, hlt,
              GradioClientManager.initialize_client] at h1
      · simp [GradioClientManager.tryPredict, hlt] at h1
  by_cases hc : s.client = true
  · rw [GradioClientManager.predict, if_pos hc] at h
    exact main s h
  · have hc' : s.client = false := by simpa using hc
    cases hinit : i1 with
    | true =>
      simp only [GradioClientManager.predict, if_neg hc, hinit,
        GradioClientManager.initialize_client, if_true] at h
      exact main _ h
    | false =>
      simp only [GradioClientManager.predict, if_neg hc, hinit,
        GradioClientManager.initialize_client, Bool.false_eq_true,
        if_false] at h
      exact Except.noConfusion h

theorem claim7_witness :
    (GradioClientManager.predict "x"
        ⟨true, CallOutcome.success (some "ok"), true, CallOutcome.success none⟩
        ⟨true, 0, 3⟩).1 = Except.ok "ok" ∧
      ∃ r : Option String,
        "ok" = Option.getD r "No result returned" ∧
        ((⟨true, CallOutcome.success (some "ok"), true, CallOutcome.success none⟩ :
            PredictEnv).remote1 = CallOutcome.success r ∨
          (⟨true, CallOutcome.success (some "ok"), true, CallOutcome.success none⟩ :
            PredictEnv).remote2 = CallOutcome.success r) :=
  ⟨rfl, claim7_result_normalization "x"
    ⟨true, CallOutcome.success (some "ok"), true, CallOutcome.success none⟩
    ⟨true, 0, 3⟩ "ok" rfl⟩

/-- Claim C8: whenever the Client Manager raises during `/predict` (on a
text that passed validation), the handler answers with a 500 carrying
`success:false`, a user-facing message chosen by substring match on the raw
error text into exactly one of the four classes — timeout, connection,
rate-limit, generic — and `debug_error` equal to the raw error string. -/
theorem claim8_error_classification (text : String) (env : PredictEnv)
    (s : ManagerState) (e : String) (h1 : text ≠ "")
    (h2 : ¬ text.length > 10000)
    (hm : (GradioClientManager.predict text env s).1 = Except.error e) :
    (handleText text env s).1 = HandlerResponse.serverError (classifyError e) e ∧
      ((strContains (strLower e) "timeout" = true ∧
          classifyError e =
            "Request timeout. The model is taking too long to respond.") ∨
        (strContains (strLower e) "timeout" = false ∧
          strContains (strLower e) "connection" = true ∧
          classifyError e = "Connection error. Cannot reach the AI model.") ∨
        (strContains (strLower e) "timeout" = false ∧
          strContains (strLower e) "connection" = false ∧
          strContains e "429" = true ∧
          classifyError e = "Rate limit exceeded. Please try again in a moment.") ∨
        (strContains (strLower e) "timeout" = false ∧
          strContains (strLower e) "connection" = false ∧
          strContains e "429" = false ∧
          classifyError e = String.append "Processing error: " e)) := by
  constructor
  · rcases hp : GradioClientManager.predict text env s with ⟨res, s2, n⟩
    rw [hp] at hm
    simp only at hm
    subst hm
    simp [handleText, h1, h2, hp]
  · cases ht : strContains (strLower e) "timeout" with
    | true => exact Or.inl ⟨rfl, by simp [classifyError, ht]⟩
    | false =>
      cases hcn : strContains (strLower e) "connection" with
      | true => exact Or.inr (Or.inl ⟨rfl, rfl, by simp [classifyError, ht, hcn]⟩)
      | false =>
        cases hr : strContains e "429" with
        | true =>
          exact Or.inr (Or.inr (Or.inl ⟨rfl, rfl, rfl,
            by simp [classifyError, ht, hcn, hr]⟩))
        | false =>
          exact Or.inr (Or.inr (Or.inr ⟨rfl, rfl, rfl,
            by simp [classifyError, ht, hcn, hr]⟩))

theorem claim8_witness :
    ("x" : String) ≠ "" ∧ ¬ ("x" : String).length > 10000 ∧
      (GradioClientManager.predict "x"
        ⟨true, CallOutcome.failure "Connection refused", true,
          CallOutcome.failure "other"⟩ ⟨true, 3, 3⟩).1 =
        Except.error "Connection refused" ∧
      (handleText "x"
          ⟨true, CallOutcome.failure "Connection refused", true,
            CallOutcome.failure "other"⟩ ⟨true, 3, 3⟩).1 =
        HandlerResponse.serverError (classifyError "Connection refused")
          "Connection refused" :=
  ⟨by decide, by decide, rfl,
    (claim8_error_classification "x"
      ⟨true, CallOutcome.failure "Connection refused", true,
        CallOutcome.failure "other"⟩
      ⟨true, 3, 3⟩ "Connection refused" (by decide) (by decide) rfl).1⟩

/-- Claim C9: `/health` reports `"degraded"` exactly when the probe call
through the Client Manager raises, and `"healthy"` exactly when it succeeds;
in both cases the response carries the current handle presence
(`client_initialized`) and the current retry counter of the state left by
the probe call. -/
theorem claim9_health_status (env : PredictEnv) (s : ManagerState) :
    ((health env s).1.status = "degraded" ↔
      ∃ e, (GradioClientManager.predict "Test health check" env s).1 =
        Except.error e) ∧
    ((health env s).1.status = "healthy" ↔
      ∃ r, (GradioClientManager.predict "Test health check" env s).1 =
        Except.ok r) ∧
    (health env s).1.client_initialized =
      (GradioClientManager.predict "Test health check" env s).2.1.client ∧
    (health env s).1.retry_count =
      (GradioClientManager.predict "Test health check" env s).2.1.retry_count := by
  rcases hp : GradioClientManager.predict "Test health check" env s with ⟨res, s2, n⟩
  cases res with
  | ok r =>
    refine ⟨?_, ?_, ?_, ?_⟩ <;> simp [health, hp]
  | error e =>
    refine ⟨?_, ?_, ?_, ?_⟩ <;> simp [health, hp]

/-- Claim C10: a POST to `/predict` whose JSON body has a non-string
`"text"` value is answered with the generic-processing-error 500 — the
`AttributeError` from calling `.strip()` on a non-string is caught by the
outer generic handler — and never with a 400 validation error; the Client
Manager is not invoked. -/
theorem claim10_nonstring_text (env : PredictEnv) (s : ManagerState)
    (k : JsonKind) :
    handlePredict (PredictRequest.postJson (TextField.nonStr k)) env s =
      (HandlerResponse.serverError
        (String.append "Processing error: " (attrErrMsg k)) (attrErrMsg k),
        s, false) := by
  have h : classifyError (attrErrMsg k) =
      String.append "Processing error: " (attrErrMsg k) := by
    cases k <;> decide
  simp [handlePredict, h]
